import Mathlib

/-!
Shallow embedding of `src/main.py` (real-time face and eye detection).

Modelling conventions:
* A `Box` is a detection rectangle `(x, y, w, h)`; OpenCV's
  `detectMultiScale` returns nonnegative integer rectangles, so the
  coordinates are natural numbers.
* An `Img` is a grayscale pixel grid: width, height, and an intensity
  function.  The pixel content is carried along for faithfulness, but the
  cascade classifiers are opaque library calls, so every theorem
  quantifies over arbitrary classifier functions `Img → List Box`
  (constrained only by the library contract that returned rectangles lie
  inside the input image).
* `cv2.resize(frame, None, fx=0.5, fy=0.5)` produces an image of size
  `cvRound(0.5 * w) × cvRound(0.5 * h)`; `cvRound` rounds half to even,
  which `resizeHalfDim` reproduces exactly.  The interpolated intensities
  are modelled by subsampling; they are irrelevant to every claim because
  the classifiers are universally quantified.
* `cv2.cvtColor(· , COLOR_BGR2GRAY)` preserves geometry; since `Img` is
  already single-channel it is the identity here.
* Wall-clock times and FPS values (Python floats) are modelled as `ℚ`;
  `time.time()` results enter `FPSCalculator.update` as an explicit
  argument.
-/

/-- A detection rectangle `(x, y, w, h)` in pixel coordinates. -/
structure Box where
  x : ℕ
  y : ℕ
  w : ℕ
  h : ℕ
deriving DecidableEq

/-- A grayscale image: dimensions plus an intensity function `pix col row`. -/
structure Img where
  width : ℕ
  height : ℕ
  pix : ℕ → ℕ → ℕ

/-- The library contract of `CascadeClassifier.detectMultiScale`: every
returned rectangle lies inside the input image. -/
def ClassifierSound (c : Img → List Box) : Prop :=
  ∀ img b, b ∈ c img → b.x + b.w ≤ img.width ∧ b.y + b.h ≤ img.height

/-- Constant `DETECTION_SCALE = 0.5` (main.py line 24). -/
def DETECTION_SCALE : ℚ := 1 / 2

/-- Constant `FPS_QUEUE_SIZE = 30` (main.py line 26). -/
def FPS_QUEUE_SIZE : ℕ := 30

/-- Constant `COLOR_FACE = (0, 255, 0)` (main.py line 41). -/
def COLOR_FACE : ℕ × ℕ × ℕ := (0, 255, 0)

/-- Constant `COLOR_EYE = (255, 0, 0)` (main.py line 42). -/
def COLOR_EYE : ℕ × ℕ × ℕ := (255, 0, 0)

/-- One output dimension of `cv2.resize(frame, None, fx=0.5, fy=0.5)`:
`cvRound(d * 0.5)` with round-half-to-even (OpenCV's `saturate_cast<int>`
of a double).  For even `d` this is exactly `d / 2`; for odd `d` the half
rounds to the even neighbour. -/
def resizeHalfDim (d : ℕ) : ℕ :=
  if d % 4 = 1 then d / 2 else (d + 1) / 2

/-- The resize call `cv2.resize(frame, None, fx=DETECTION_SCALE, fy=DETECTION_SCALE)`
(main.py line 194).  Intensities are subsampled; the exact interpolation
kernel is irrelevant because all classifiers are quantified opaquely. -/
def resizeHalf (img : Img) : Img where
  width := resizeHalfDim img.width
  height := resizeHalfDim img.height
  pix := fun i j => img.pix (2 * i) (2 * j)

/-- The numpy slice `gray_full[y:y+h, x:x+w]` (main.py line 219): slicing
clips at the array boundary, so the result is `min (x+w) width - x` wide
(natural subtraction makes this empty when `x ≥ width`). -/
def cropImg (img : Img) (x y w h : ℕ) : Img where
  width := min (x + w) img.width - x
  height := min (y + h) img.height - y
  pix := fun i j => img.pix (x + i) (y + j)

/-- Scaling a detection coordinate down by a factor `f`: a coordinate `v`
of the full-resolution frame appears at `⌊v * f⌋` in the frame resized by
`f` (nonnegative, so floor and Python `int` truncation agree). -/
def downscaleCoord (f : ℚ) (v : ℕ) : ℤ :=
  Int.floor ((v : ℚ) * f)

/-- The rescaling `int(v / DETECTION_SCALE)` of main.py lines 209-211,
for a general factor `f`: Python `int()` truncates toward zero, which is
floor for the nonnegative values that occur. -/
def rescaleCoord (f : ℚ) (v : ℤ) : ℤ :=
  Int.floor ((v : ℚ) / f)

/-- The rescale `int(v / DETECTION_SCALE)` at the code's `DETECTION_SCALE = 0.5` is
exact doubling: `v / 0.5 = 2 * v` with no rounding error in IEEE doubles
for the coordinate ranges involved. -/
def rescaleBox (b : Box) : Box :=
  ⟨2 * b.x, 2 * b.y, 2 * b.w, 2 * b.h⟩

/-- The body of the eye loop of main.py lines 217-232 for one face box:
crop the face region out of the full-resolution grayscale frame, run the
eye classifier on the crop, and translate each eye box back to full-frame
coordinates by adding the face origin. -/
def eyesForFace (eye_cascade : Img → List Box) (gray_full : Img) (f : Box) : List Box :=
  let roi_gray := cropImg gray_full f.x f.y f.w f.h
  (eye_cascade roi_gray).map (fun e => ⟨f.x + e.x, f.y + e.y, e.w, e.h⟩)

/-- The function `detect_faces_and_eyes` (main.py lines 181-234): resize the frame by
`DETECTION_SCALE`, run the face classifier on the (grayscale) small
frame, rescale each face box by `1 / DETECTION_SCALE`, then accumulate
eye boxes face by face from full-resolution face crops. -/
def detect_faces_and_eyes (face_cascade eye_cascade : Img → List Box) (frame : Img) :
    List Box × List Box :=
  let gray := resizeHalf frame
  let faces := (face_cascade gray).map rescaleBox
  let gray_full := frame
  let eyes := faces.foldl (fun eyes f => eyes ++ eyesForFace eye_cascade gray_full f) []
  (faces, eyes)

/-- Instrumented variant of `detect_faces_and_eyes` that additionally
counts how many times the eye classifier is invoked (once per face box,
main.py line 222). -/
def detectCounting (face_cascade eye_cascade : Img → List Box) (frame : Img) :
    (List Box × List Box) × ℕ :=
  let gray := resizeHalf frame
  let faces := (face_cascade gray).map rescaleBox
  let r := faces.foldl
    (fun acc f => (acc.1 ++ eyesForFace eye_cascade frame f, acc.2 + 1)) ([], 0)
  ((faces, r.1), r.2)

/-- One rectangle-drawing command issued by `cv2.rectangle` in
`draw_detections` (main.py lines 250-255): corners and BGR color. -/
structure RectCmd where
  x1 : ℕ
  y1 : ℕ
  x2 : ℕ
  y2 : ℕ
  color : ℕ × ℕ × ℕ
deriving DecidableEq

/-- The function `draw_detections` (main.py lines 240-255): one green outline per face
box, then one blue outline per eye box, each from `(x, y)` to
`(x + w, y + h)`. -/
def draw_detections (faces eyes : List Box) : List RectCmd :=
  faces.map (fun b => ⟨b.x, b.y, b.x + b.w, b.y + b.h, COLOR_FACE⟩) ++
    eyes.map (fun b => ⟨b.x, b.y, b.x + b.w, b.y + b.h, COLOR_EYE⟩)

/-- The per-iteration counters of main.py lines 399-404: face count, eye
count, and the display-only cap `display_face_count = min(face_count, 5)`. -/
structure IterStats where
  face_count : ℕ
  eye_count : ℕ
  display_face_count : ℕ
deriving DecidableEq

/-- Lines 399-404 of `main`: `face_count = len(faces)`,
`eye_count = len(eyes)`, `display_face_count = min(face_count, 5)`. -/
def iterationStats (faces eyes : List Box) : IterStats :=
  { face_count := faces.length
    eye_count := eyes.length
    display_face_count := min faces.length 5 }

/-- Python `deque(maxlen=cap)` append: the new element goes to the right;
when the deque would exceed `cap`, elements are dropped from the left. -/
def dequePush (cap : ℕ) (xs : List ℚ) (v : ℚ) : List ℚ :=
  let ys := xs ++ [v]
  if cap < ys.length then ys.drop (ys.length - cap) else ys

/-- The class `FPSCalculator` (main.py lines 300-331): a rolling window of
inter-frame durations (`deque(maxlen=queue_size)`) plus the wall-clock
time of the last `update` call. -/
structure FPSCalculator where
  frame_times : List ℚ
  queue_size : ℕ
  last_time : ℚ
deriving DecidableEq

/-- The constructor `FPSCalculator.__init__(queue_size)` at wall-clock time `t0`
(main.py lines 303-311). -/
def FPSCalculator.init (queue_size : ℕ) (t0 : ℚ) : FPSCalculator :=
  { frame_times := [], queue_size := queue_size, last_time := t0 }

/-- The method `FPSCalculator.update` (main.py lines 313-331), with the
`time.time()` value passed explicitly.  The delta since the previous call
is pushed only when strictly positive; the returned FPS is
`1 / mean(frame_times)` when the window is non-empty and the mean is
positive, else `0`. -/
def FPSCalculator.update (c : FPSCalculator) (current_time : ℚ) : FPSCalculator × ℚ :=
  let frame_time := current_time - c.last_time
  let frame_times :=
    if 0 < frame_time then dequePush c.queue_size c.frame_times frame_time
    else c.frame_times
  let c1 : FPSCalculator :=
    { frame_times := frame_times, queue_size := c.queue_size, last_time := current_time }
  if 0 < c1.frame_times.length then
    let avg_frame_time := c1.frame_times.sum / c1.frame_times.length
    (c1, if 0 < avg_frame_time then 1 / avg_frame_time else 0)
  else
    (c1, 0)

/-- The FPS value computed by main.py lines 327-331 from a window:
`1 / mean` when the window is non-empty and the mean is positive, else
`0`.  `FPSCalculator.update` returns exactly this value on its
post-call window (see `update_eq`). -/
def fpsOf (frame_times : List ℚ) : ℚ :=
  if 0 < frame_times.length then
    let avg_frame_time := frame_times.sum / frame_times.length
    if 0 < avg_frame_time then 1 / avg_frame_time else 0
  else 0

/-- Feed `c` a run of `update` calls whose `time.time()` values are the
given list, in order; returns the final calculator state. -/
def runUpdates (c : FPSCalculator) : List ℚ → FPSCalculator
  | [] => c
  | t :: ts => runUpdates (FPSCalculator.update c t).1 ts

/-- Feed `n` update calls each exactly `d` seconds after the previous
one (so each measured delta is `d`). -/
def feedDeltas (c : FPSCalculator) (d : ℚ) : ℕ → FPSCalculator × ℚ
  | 0 => (c, 0)
  | n + 1 =>
    let p := feedDeltas c d n
    FPSCalculator.update p.1 (p.1.last_time + d)

/-- Observable side effects of one iteration of the capture loop. -/
inductive LoopEvent where
  | warnCaptureFailed
  | detected (faces eyes : List Box)
  | rendered (rects : List RectCmd) (stats : IterStats)
  | displayed
  | screenshotSaved
  | quitRequested
  | perfSummary (frame_count : ℕ)
deriving DecidableEq

/-- The loop-carried state of `main` (lines 375-436): the processed-frame
counter, the FPS calculator, and whether the loop is still running. -/
structure LoopState where
  frame_count : ℕ
  fps_calculator : FPSCalculator
  running : Bool
deriving DecidableEq

/-- One iteration of the `while True` loop of `main` (lines 379-436).
`captured` is `cap.read()`'s frame (`none` when `ret` is false), `t` the
`time.time()` value seen by the FPS update, `key` the polled keypress.
A failed capture logs a warning and `continue`s before any counter is
touched.  On success: detect, update FPS, draw, display; a `q` keypress
breaks out of the loop before `frame_count += 1`; an `s` keypress saves a
screenshot; otherwise the counter is incremented and every 100th frame
emits a performance summary. -/
def loopStep (face_cascade eye_cascade : Img → List Box) (s : LoopState)
    (captured : Option Img) (t : ℚ) (key : Option Char) : LoopState × List LoopEvent :=
  match captured with
  | none => (s, [LoopEvent.warnCaptureFailed])
  | some frame =>
    let fe := detect_faces_and_eyes face_cascade eye_cascade frame
    let u := s.fps_calculator.update t
    let stats := iterationStats fe.1 fe.2
    let evs := [LoopEvent.detected fe.1 fe.2,
      LoopEvent.rendered (draw_detections fe.1 fe.2) stats, LoopEvent.displayed]
    if key = some 'q' then
      ({ s with fps_calculator := u.1, running := false }, evs ++ [LoopEvent.quitRequested])
    else
      let evs := if key = some 's' then evs ++ [LoopEvent.screenshotSaved] else evs
      let fc := s.frame_count + 1
      let evs := if fc % 100 = 0 then evs ++ [LoopEvent.perfSummary fc] else evs
      ({ s with fps_calculator := u.1, frame_count := fc }, evs)

/-- Iterate `loopStep` through `n` consecutive failed captures. -/
def runFailedCaptures (face_cascade eye_cascade : Img → List Box) (s : LoopState)
    (t : ℚ) (key : Option Char) : ℕ → LoopState
  | 0 => s
  | n + 1 =>
    (loopStep face_cascade eye_cascade
      (runFailedCaptures face_cascade eye_cascade s t key n) none t key).1

/-- The session-summary average FPS of main.py lines 453-455:
`frame_count / total_time` when `total_time > 0`, else `0`. -/
def finalAvgFPS (frame_count : ℕ) (total_time : ℚ) : ℚ :=
  if 0 < total_time then (frame_count : ℚ) / total_time else 0

/-- A concrete 640x480 all-black test frame (the camera's negotiated
capture size, main.py lines 164-165). -/
def frame640 : Img :=
  ⟨640, 480, fun _ _ => 0⟩

/-- A concrete 643x480 all-black test frame.  `643 % 4 = 3`, so the
half-resize dimension `cvRound(321.5)` rounds half-to-even up to 322. -/
def frame643 : Img :=
  ⟨643, 480, fun _ _ => 0⟩

/-- Test face classifier: reports one 30x30 face at `(5, 6)` exactly on a
320x240 image (the downscaled 640x480 frame), nothing elsewhere. -/
def faceCtest : Img → List Box := fun img =>
  if img.width = 320 ∧ img.height = 240 then [⟨5, 6, 30, 30⟩] else []

/-- Test eye classifier: reports one 15x15 eye at `(1, 2)` on any image
of size at least 17x17, nothing elsewhere. -/
def eyeCtest : Img → List Box := fun img =>
  if 17 ≤ img.width ∧ 17 ≤ img.height then [⟨1, 2, 15, 15⟩] else []

/-- Test face classifier that reports one face spanning an entire 322x240
image (the downscaled 643x480 frame), nothing elsewhere. -/
def faceCwide : Img → List Box := fun img =>
  if img.width = 322 ∧ img.height = 240 then [⟨0, 0, 322, 240⟩] else []

/-- A classifier that never reports a detection. -/
def cascadeNone : Img → List Box := fun _ => []

/-- A concrete calculator state used to exercise eviction: a full window
of two 1-second samples with capacity 2, last called at time 5. -/
def fpsFullTest : FPSCalculator :=
  { frame_times := [1, 1], queue_size := 2, last_time := 5 }

/-!
Helper lemmas.
-/

theorem rescaleCoord_half (v : ℕ) : rescaleCoord DETECTION_SCALE (v : ℤ) = 2 * v := by
  simp only [rescaleCoord, DETECTION_SCALE]
  rw [div_div_eq_mul_div, div_one]
  rw [show ((v : ℤ) : ℚ) * 2 = ((2 * v : ℤ) : ℚ) by push_cast; ring]
  exact Int.floor_intCast _

theorem eyeCtest_sound : ClassifierSound eyeCtest := by
  intro img b hb
  unfold eyeCtest at hb
  by_cases h : 17 ≤ img.width ∧ 17 ≤ img.height
  · rw [if_pos h] at hb
    simp only [List.mem_singleton] at hb
    subst hb
    exact ⟨by simp; omega, by simp; omega⟩
  · rw [if_neg h] at hb
    simp at hb

theorem faceCtest_sound : ClassifierSound faceCtest := by
  intro img b hb
  unfold faceCtest at hb
  by_cases h : img.width = 320 ∧ img.height = 240
  · rw [if_pos h] at hb
    simp only [List.mem_singleton] at hb
    subst hb
    exact ⟨by simp; omega, by simp; omega⟩
  · rw [if_neg h] at hb
    simp at hb

theorem faceCwide_sound : ClassifierSound faceCwide := by
  intro img b hb
  unfold faceCwide at hb
  by_cases h : img.width = 322 ∧ img.height = 240
  · rw [if_pos h] at hb
    simp only [List.mem_singleton] at hb
    subst hb
    exact ⟨by simp; omega, by simp; omega⟩
  · rw [if_neg h] at hb
    simp at hb

theorem detect_eyes_mem (face_cascade eye_cascade : Img → List Box) (frame : Img)
    (e : Box) (he : e ∈ (detect_faces_and_eyes face_cascade eye_cascade frame).2) :
    ∃ f ∈ (detect_faces_and_eyes face_cascade eye_cascade frame).1,
      e ∈ eyesForFace eye_cascade frame f := by
  unfold detect_faces_and_eyes at he ⊢
  simp only at he ⊢
  generalize hfs : (face_cascade (resizeHalf frame)).map rescaleBox = faces at he ⊢
  clear hfs
  suffices h : ∀ (acc : List Box),
      e ∈ faces.foldl (fun eyes f => eyes ++ eyesForFace eye_cascade frame f) acc →
      e ∈ acc ∨ ∃ f ∈ faces, e ∈ eyesForFace eye_cascade frame f by
    rcases h [] he with h0 | hok
    · simp at h0
    · exact hok
  clear he
  induction faces with
  | nil => intro acc h; exact Or.inl h
  | cons f fs ih =>
    intro acc h
    rw [List.foldl_cons] at h
    have h2 := ih (acc ++ eyesForFace eye_cascade frame f) h
    rcases h2 with hacc | ⟨g, hg, hge⟩
    · rcases List.mem_append.mp hacc with h1 | h2
      · exact Or.inl h1
      · exact Or.inr ⟨f, List.mem_cons_self f fs, h2⟩
    · exact Or.inr ⟨g, List.mem_cons_of_mem _ hg, hge⟩

/-- C1: for every frame and every face box `f` returned by the face
classifier, every eye box `e` produced by `detect_faces_and_eyes` from
`f`'s crop is fully contained within `f` after translation to full-frame
coordinates: `e.x ≥ f.x`, `e.y ≥ f.y`, `e.x + e.w ≤ f.x + f.w`, and
`e.y + e.h ≤ f.y + f.h`. -/
theorem C1_eyes_within_source_face
    (face_cascade eye_cascade : Img → List Box) (frame : Img) (f e : Box)
    (hsound : ClassifierSound eye_cascade)
    (_hf : f ∈ (detect_faces_and_eyes face_cascade eye_cascade frame).1)
    (he : e ∈ eyesForFace eye_cascade frame f) :
    f.x ≤ e.x ∧ f.y ≤ e.y ∧ e.x + e.w ≤ f.x + f.w ∧ e.y + e.h ≤ f.y + f.h := by
  unfold eyesForFace at he
  simp only [List.mem_map] at he
  obtain ⟨e0, he0, rfl⟩ := he
  have hb := hsound _ _ he0
  simp only [cropImg] at hb
  obtain ⟨h1, h2⟩ := hb
  refine ⟨?_, ?_, ?_, ?_⟩ <;> simp <;> omega

/-- Witness for C1: concrete classifiers on a 640x480 frame, one face at
`(10, 12)` of size 60x60 and one translated eye at `(11, 14)` of size
15x15. -/
theorem C1_witness :
    ClassifierSound eyeCtest ∧
    Box.mk 10 12 60 60 ∈ (detect_faces_and_eyes faceCtest eyeCtest frame640).1 ∧
    Box.mk 11 14 15 15 ∈ eyesForFace eyeCtest frame640 (Box.mk 10 12 60 60) ∧
    (10 ≤ 11 ∧ 12 ≤ 14 ∧ 11 + 15 ≤ 10 + 60 ∧ 14 + 15 ≤ 12 + 60) :=
  ⟨eyeCtest_sound, by decide, by decide,
    C1_eyes_within_source_face faceCtest eyeCtest frame640
      (Box.mk 10 12 60 60) (Box.mk 11 14 15 15) eyeCtest_sound
      (by decide) (by decide)⟩

theorem resizeHalfDim_even (d : ℕ) (hd : d % 2 = 0) : 2 * resizeHalfDim d = d := by
  unfold resizeHalfDim
  split <;> omega

/-- C2 counterexample: for a 643x480 frame (643 = 4*160+3, so the
half-resize dimension `cvRound(321.5)` rounds up to 322), a face box
spanning the whole downscaled image — permitted by the classifier
contract — rescales to width 644, exceeding the frame width 643.  The
claim as stated ("for every input frame ... lies within the
full-resolution frame's extent") is therefore false. -/
theorem C2_counterexample :
    ClassifierSound faceCwide ∧
    Box.mk 0 0 644 480 ∈ (detect_faces_and_eyes faceCwide cascadeNone frame643).1 ∧
    frame643.width < 0 + 644 :=
  ⟨faceCwide_sound, by decide, by decide⟩

/-- C2 (amended): for every frame whose width and height are even — in
particular the 640x480 capture size the camera is configured for — every
face box returned by `detect_faces_and_eyes` lies within the
full-resolution frame's extent (coordinates are nonnegative by
construction, and `x + w ≤ width`, `y + h ≤ height`). -/
theorem C2_face_boxes_within_even_frame
    (face_cascade eye_cascade : Img → List Box) (frame : Img) (b : Box)
    (hsound : ClassifierSound face_cascade)
    (hw : frame.width % 2 = 0) (hh : frame.height % 2 = 0)
    (hb : b ∈ (detect_faces_and_eyes face_cascade eye_cascade frame).1) :
    0 ≤ b.x ∧ 0 ≤ b.y ∧ b.x + b.w ≤ frame.width ∧ b.y + b.h ≤ frame.height := by
  unfold detect_faces_and_eyes at hb
  simp only [List.mem_map] at hb
  obtain ⟨a, ha, rfl⟩ := hb
  have h := hsound _ _ ha
  simp only [resizeHalf] at h
  have hwd := resizeHalfDim_even frame.width hw
  have hhd := resizeHalfDim_even frame.height hh
  unfold rescaleBox
  refine ⟨Nat.zero_le _, Nat.zero_le _, ?_, ?_⟩ <;> simp <;> omega

/-- Witness for the amended C2 at the 640x480 test frame and concrete
classifiers. -/
theorem C2_witness :
    ClassifierSound faceCtest ∧ frame640.width % 2 = 0 ∧ frame640.height % 2 = 0 ∧
    Box.mk 10 12 60 60 ∈ (detect_faces_and_eyes faceCtest eyeCtest frame640).1 ∧
    (0 ≤ 10 ∧ 0 ≤ 12 ∧ 10 + 60 ≤ frame640.width ∧ 12 + 60 ≤ frame640.height) :=
  ⟨faceCtest_sound, by decide, by decide, by decide,
    C2_face_boxes_within_even_frame faceCtest eyeCtest frame640 (Box.mk 10 12 60 60)
      faceCtest_sound (by decide) (by decide) (by decide)⟩

/-- C3 counterexample: at downscale factor `f = 1/4` (still in `(0, 1]`)
and full-resolution coordinate 3, downscaling gives `⌊3/4⌋ = 0` and the
rescale `int(0 / f)` gives 0, which misses the original coordinate by 3
pixels — more than the claimed ±1.  The ±1 round-trip bound therefore
does not hold for every `f ∈ (0, 1]`. -/
theorem C3_counterexample :
    rescaleCoord (1 / 4) (downscaleCoord (1 / 4) 3) = 0 ∧ (1 : ℤ) < 3 - 0 := by
  refine ⟨?_, by norm_num⟩
  have h1 : downscaleCoord (1 / 4) 3 = 0 := by
    simp only [downscaleCoord]
    norm_num
  rw [h1]
  simp only [rescaleCoord]
  norm_num

/-- C3 (amended): at the downscale factor the code actually uses,
`DETECTION_SCALE = 1/2`, the rescaling `int(v / DETECTION_SCALE)` applied
by `detect_faces_and_eyes` inverts the downscale to within ±1 pixel:
composing the downscale with the rescale recovers each coordinate `v`
with `result ≤ v ≤ result + 1`. -/
theorem C3_roundtrip_at_half_scale (v : ℕ) :
    rescaleCoord DETECTION_SCALE (downscaleCoord DETECTION_SCALE v) ≤ v ∧
    (v : ℤ) ≤ rescaleCoord DETECTION_SCALE (downscaleCoord DETECTION_SCALE v) + 1 := by
  have hd : downscaleCoord DETECTION_SCALE v = ((v / 2 : ℕ) : ℤ) := by
    simp only [downscaleCoord, DETECTION_SCALE]
    rw [show (v : ℚ) * (1 / 2) = (v : ℚ) / ((2 : ℕ) : ℚ) by push_cast; ring]
    rw [← Int.natCast_floor_eq_floor (by positivity)]
    rw [Nat.floor_div_eq_div]
  rw [hd, rescaleCoord_half]
  constructor <;> push_cast <;> omega

theorem update_eq (c : FPSCalculator) (t : ℚ) :
    c.update t =
      ({ frame_times :=
            (if 0 < t - c.last_time
              then dequePush c.queue_size c.frame_times (t - c.last_time)
              else c.frame_times),
          queue_size := c.queue_size,
          last_time := t },
        fpsOf (if 0 < t - c.last_time
            then dequePush c.queue_size c.frame_times (t - c.last_time)
            else c.frame_times)) := by
  unfold FPSCalculator.update fpsOf
  by_cases hp : 0 < t - c.last_time <;>
    simp only [hp, if_true, if_false] <;> split <;> rfl

theorem dequePush_length_le (cap : ℕ) (xs : List ℚ) (v : ℚ) :
    (dequePush cap xs v).length ≤ cap := by
  simp only [dequePush]
  split <;> rename_i h <;>
    simp only [List.length_drop, List.length_append, List.length_singleton] at h ⊢ <;>
    omega

theorem dequePush_replicate (cap k : ℕ) (d : ℚ) (hk : k ≤ cap) :
    dequePush cap (List.replicate k d) d = List.replicate (min (k + 1) cap) d := by
  simp only [dequePush]
  rw [← List.replicate_succ']
  simp only [List.length_replicate]
  by_cases h : cap < k + 1
  · rw [if_pos h, List.drop_replicate]
    congr 1
    omega
  · rw [if_neg h]
    congr 1
    omega

theorem dequePush_evict (cap : ℕ) (xs : List ℚ) (v : ℚ)
    (hfull : xs.length = cap) (hcap : 0 < cap) :
    dequePush cap xs v = xs.drop 1 ++ [v] := by
  simp only [dequePush]
  rw [if_pos (by simp [hfull])]
  rw [List.drop_append_of_le_length (by simp [hfull, List.length_append]; omega)]
  congr 2
  simp [hfull]

theorem runUpdates_length (ts : List ℚ) : ∀ (c : FPSCalculator),
    c.frame_times.length ≤ c.queue_size →
    (runUpdates c ts).queue_size = c.queue_size ∧
    (runUpdates c ts).frame_times.length ≤ c.queue_size := by
  induction ts with
  | nil => intro c hc; exact ⟨rfl, hc⟩
  | cons t ts ih =>
    intro c hc
    rw [runUpdates]
    have h1 : (c.update t).1.queue_size = c.queue_size := by rw [update_eq]
    have h2 : (c.update t).1.frame_times.length ≤ c.queue_size := by
      rw [update_eq]
      simp only
      split
      · exact dequePush_length_le _ _ _
      · exact hc
    obtain ⟨ha, hb⟩ := ih (c.update t).1 (by rw [h1]; exact h2)
    exact ⟨by rw [ha, h1], by rw [h1] at hb; exact hb⟩

theorem feedDeltas_state (cap : ℕ) (t0 d : ℚ) (hd : 0 < d) (N : ℕ) :
    (feedDeltas (FPSCalculator.init cap t0) d N).1 =
      { frame_times := List.replicate (min N cap) d
        queue_size := cap
        last_time := t0 + N * d } := by
  induction N with
  | zero => simp [feedDeltas, FPSCalculator.init]
  | succ n ih =>
    show (FPSCalculator.update (feedDeltas (FPSCalculator.init cap t0) d n).1
        ((feedDeltas (FPSCalculator.init cap t0) d n).1.last_time + d)).1 = _
    rw [ih, update_eq]
    have he : (t0 + (n:ℚ) * d + d) - (t0 + (n:ℚ) * d) = d := by ring
    simp only [FPSCalculator.mk.injEq, he]
    refine ⟨?_, trivial, by push_cast; ring⟩
    rw [if_pos hd, dequePush_replicate cap (min n cap) d (min_le_right n cap)]
    congr 1
    omega

theorem fpsOf_pos (xs : List ℚ) (hne : xs ≠ []) (havg : 0 < xs.sum / xs.length) :
    fpsOf xs = 1 / (xs.sum / xs.length) := by
  simp only [fpsOf]
  rw [if_pos (List.length_pos.mpr hne), if_pos havg]

theorem fpsOf_zero (xs : List ℚ) (h : xs = [] ∨ ¬0 < xs.sum / xs.length) :
    fpsOf xs = 0 := by
  simp only [fpsOf]
  rcases h with h | h
  · subst h
    simp
  · by_cases hl : 0 < xs.length
    · rw [if_pos hl, if_neg h]
    · rw [if_neg hl]

theorem fpsOf_replicate (k : ℕ) (d : ℚ) (hk : 0 < k) (hd : 0 < d) :
    fpsOf (List.replicate k d) = 1 / d := by
  simp only [fpsOf, List.length_replicate, List.sum_replicate, nsmul_eq_mul]
  rw [if_pos hk]
  have hk0 : ((k : ℚ)) ≠ 0 := by positivity
  rw [show (k : ℚ) * d / (k : ℚ) = d from by field_simp]
  rw [if_pos hd]

theorem initUpdate_eval :
    (FPSCalculator.init 2 0).update 1 =
      ({ frame_times := [1], queue_size := 2, last_time := 1 }, 1) := by
  rw [update_eq]
  norm_num [FPSCalculator.init, dequePush, fpsOf]

theorem initBackwards_eval :
    (FPSCalculator.init 2 5).update 3 =
      ({ frame_times := [], queue_size := 2, last_time := 3 }, 0) := by
  rw [update_eq]
  norm_num [FPSCalculator.init, fpsOf]

/-- C4: for every calculator state, `update` returns
`1 / average(window)` when the (post-call) window is non-empty and the
average is positive, and returns `0` otherwise; in particular, filling a
fresh calculator of positive capacity with `N ≥ 1` identical positive
inter-call deltas of `d` seconds makes the returned FPS exactly `1 / d`. -/
theorem C4_fps_formula (c : FPSCalculator) (t : ℚ) (cap N : ℕ) (t0 d : ℚ)
    (hcap : 0 < cap) (hd : 0 < d) (hN : 0 < N) :
    ((c.update t).1.frame_times ≠ [] ∧
        0 < (c.update t).1.frame_times.sum / (c.update t).1.frame_times.length →
      (c.update t).2 =
        1 / ((c.update t).1.frame_times.sum / (c.update t).1.frame_times.length)) ∧
    ((c.update t).1.frame_times = [] ∨
        ¬0 < (c.update t).1.frame_times.sum / (c.update t).1.frame_times.length →
      (c.update t).2 = 0) ∧
    (feedDeltas (FPSCalculator.init cap t0) d N).2 = 1 / d := by
  have hu := update_eq c t
  refine ⟨?_, ?_, ?_⟩
  · intro h
    rw [hu] at h ⊢
    exact fpsOf_pos _ h.1 h.2
  · intro h
    rw [hu] at h ⊢
    exact fpsOf_zero _ h
  · obtain ⟨n, rfl⟩ : ∃ n, N = n + 1 := ⟨N - 1, by omega⟩
    show (FPSCalculator.update (feedDeltas (FPSCalculator.init cap t0) d n).1
        ((feedDeltas (FPSCalculator.init cap t0) d n).1.last_time + d)).2 = 1 / d
    rw [feedDeltas_state cap t0 d hd n, update_eq]
    have he : (t0 + (n : ℚ) * d + d) - (t0 + (n : ℚ) * d) = d := by ring
    simp only [he]
    rw [if_pos hd, dequePush_replicate cap (min n cap) d (min_le_right n cap)]
    exact fpsOf_replicate _ d (by omega) hd

/-- Witness for C4: a fresh capacity-2 calculator updated 1 second later
holds the window `[1]` and reports FPS `1 = 1 / average`; one whose clock
moved backwards keeps an empty window and reports 0; three updates at
1-second deltas report FPS 1. -/
theorem C4_witness :
    (((FPSCalculator.init 2 0).update 1).1.frame_times ≠ [] ∧
      (0:ℚ) < ((FPSCalculator.init 2 0).update 1).1.frame_times.sum /
        ((FPSCalculator.init 2 0).update 1).1.frame_times.length) ∧
    ((FPSCalculator.init 2 0).update 1).2 =
      1 / (((FPSCalculator.init 2 0).update 1).1.frame_times.sum /
        ((FPSCalculator.init 2 0).update 1).1.frame_times.length) ∧
    ((FPSCalculator.init 2 5).update 3).1.frame_times = [] ∧
    ((FPSCalculator.init 2 5).update 3).2 = 0 ∧
    ((0:ℚ) < 1 ∧ 0 < 2 ∧ 0 < 3) ∧
    (feedDeltas (FPSCalculator.init 2 0) 1 3).2 = 1 / (1 : ℚ) :=
  ⟨⟨by rw [initUpdate_eval]; simp, by rw [initUpdate_eval]; norm_num⟩,
    (C4_fps_formula (FPSCalculator.init 2 0) 1 2 3 0 1
      (by decide) one_pos (by decide)).1
      ⟨by rw [initUpdate_eval]; simp, by rw [initUpdate_eval]; norm_num⟩,
    by rw [initBackwards_eval],
    (C4_fps_formula (FPSCalculator.init 2 5) 3 2 3 0 1
      (by decide) one_pos (by decide)).2.1 (Or.inl (by rw [initBackwards_eval])),
    ⟨one_pos, by decide, by decide⟩,
    (C4_fps_formula (FPSCalculator.init 2 0) 1 2 3 0 1
      (by decide) one_pos (by decide)).2.2⟩

/-- C5: an `update` call whose measured inter-call delta is zero or
negative (the new `time.time()` value does not exceed the previous one)
never pushes into the rolling window — the window is unchanged — and
returns the same FPS value as the previous call reported. -/
theorem C5_nonpositive_delta_keeps_fps (c : FPSCalculator) (t1 t2 : ℚ)
    (h : t2 ≤ t1) :
    ((c.update t1).1.update t2).1.frame_times = (c.update t1).1.frame_times ∧
    ((c.update t1).1.update t2).2 = (c.update t1).2 := by
  have h1 := update_eq c t1
  have hlast : (c.update t1).1.last_time = t1 := by rw [h1]
  have hneg : ¬0 < t2 - (c.update t1).1.last_time := by
    rw [hlast]
    linarith
  have h2 := update_eq (c.update t1).1 t2
  rw [if_neg hneg] at h2
  constructor
  · rw [h2]
  · rw [h2, h1]

/-- Witness for C5: a second update at the same wall-clock instant
(delta 0) keeps the window and the reported FPS. -/
theorem C5_witness :
    (1 : ℚ) ≤ 1 ∧
    ((((FPSCalculator.init 3 0).update 1).1.update 1).1.frame_times =
        ((FPSCalculator.init 3 0).update 1).1.frame_times ∧
      (((FPSCalculator.init 3 0).update 1).1.update 1).2 =
        ((FPSCalculator.init 3 0).update 1).2) :=
  ⟨le_refl 1,
    C5_nonpositive_delta_keeps_fps (FPSCalculator.init 3 0) 1 1 (le_refl 1)⟩

/-- C6: for every sequence of `update` calls on a calculator constructed
with capacity `cap`, the rolling window never holds more than `cap`
samples; and an update that pushes into a full window evicts the oldest
sample (the window becomes `old.drop 1 ++ [delta]`). -/
theorem C6_window_capacity_and_eviction (cap : ℕ) (t0 : ℚ) (ts : List ℚ)
    (c : FPSCalculator) (t : ℚ)
    (hqs : c.queue_size = cap) (hfull : c.frame_times.length = cap)
    (hcap : 0 < cap) (hpos : 0 < t - c.last_time) :
    (runUpdates (FPSCalculator.init cap t0) ts).frame_times.length ≤ cap ∧
    (c.update t).1.frame_times = c.frame_times.drop 1 ++ [t - c.last_time] := by
  constructor
  · exact (runUpdates_length ts (FPSCalculator.init cap t0)
      (by simp [FPSCalculator.init])).2
  · rw [update_eq]
    simp only
    rw [if_pos hpos, hqs]
    exact dequePush_evict cap c.frame_times (t - c.last_time) hfull hcap

/-- Witness for C6: three updates on a capacity-2 calculator keep at
most 2 samples, and updating the full test calculator evicts its oldest
sample. -/
theorem C6_witness :
    (fpsFullTest.queue_size = 2 ∧ fpsFullTest.frame_times.length = 2 ∧
      0 < 2 ∧ (0:ℚ) < 6 - fpsFullTest.last_time) ∧
    (runUpdates (FPSCalculator.init 2 0) [1, 2, 3]).frame_times.length ≤ 2 ∧
    (fpsFullTest.update 6).1.frame_times =
      fpsFullTest.frame_times.drop 1 ++ [6 - fpsFullTest.last_time] :=
  ⟨⟨rfl, rfl, by decide, by norm_num [fpsFullTest]⟩,
    (C6_window_capacity_and_eviction 2 0 [1, 2, 3] fpsFullTest 6
      rfl rfl (by decide) (by norm_num [fpsFullTest])).1,
    (C6_window_capacity_and_eviction 2 0 [1, 2, 3] fpsFullTest 6
      rfl rfl (by decide) (by norm_num [fpsFullTest])).2⟩

theorem foldl_pair_eq (g : Box → List Box) (fs : List Box) :
    ∀ (a : List Box) (n : ℕ),
      fs.foldl (fun acc f => (acc.1 ++ g f, acc.2 + 1)) (a, n) =
        (fs.foldl (fun l f => l ++ g f) a, n + fs.length) := by
  induction fs with
  | nil => intro a n; simp
  | cons f fs ih =>
    intro a n
    rw [List.foldl_cons, List.foldl_cons, ih]
    simp only [List.length_cons, Prod.mk.injEq]
    exact ⟨trivial, by omega⟩

theorem detectCounting_spec (face_cascade eye_cascade : Img → List Box) (frame : Img) :
    (detectCounting face_cascade eye_cascade frame).1 =
      detect_faces_and_eyes face_cascade eye_cascade frame ∧
    (detectCounting face_cascade eye_cascade frame).2 =
      (detect_faces_and_eyes face_cascade eye_cascade frame).1.length := by
  unfold detectCounting detect_faces_and_eyes
  simp only
  rw [foldl_pair_eq (eyesForFace eye_cascade frame) _ [] 0]
  simp

/-- C7: for every frame on which the face classifier detects zero faces,
`detect_faces_and_eyes` returns an empty eye list and performs no eye
classifier invocation. -/
theorem C7_no_faces_no_eye_search (face_cascade eye_cascade : Img → List Box)
    (frame : Img) (h : face_cascade (resizeHalf frame) = []) :
    (detect_faces_and_eyes face_cascade eye_cascade frame).2 = [] ∧
    (detectCounting face_cascade eye_cascade frame).2 = 0 := by
  simp only [detect_faces_and_eyes, detectCounting]
  rw [h]
  exact ⟨rfl, rfl⟩

/-- Witness for C7: a face classifier that never fires on the 640x480
test frame yields no eyes and zero eye-classifier invocations. -/
theorem C7_witness :
    cascadeNone (resizeHalf frame640) = [] ∧
    (detect_faces_and_eyes cascadeNone eyeCtest frame640).2 = [] ∧
    (detectCounting cascadeNone eyeCtest frame640).2 = 0 :=
  ⟨rfl,
    (C7_no_faces_no_eye_search cascadeNone eyeCtest frame640 rfl).1,
    (C7_no_faces_no_eye_search cascadeNone eyeCtest frame640 rfl).2⟩

theorem draw_detections_face_rects (faces eyes : List Box) :
    ((draw_detections faces eyes).filter (fun r => r.color == COLOR_FACE)).length =
      faces.length := by
  unfold draw_detections
  rw [List.filter_append]
  have h1 : (faces.map (fun b => RectCmd.mk b.x b.y (b.x + b.w) (b.y + b.h) COLOR_FACE)).filter
      (fun r => r.color == COLOR_FACE) =
      faces.map (fun b => RectCmd.mk b.x b.y (b.x + b.w) (b.y + b.h) COLOR_FACE) := by
    apply List.filter_eq_self.mpr
    intro r hr
    simp only [List.mem_map] at hr
    obtain ⟨b, _, rfl⟩ := hr
    simp
  have h2 : (eyes.map (fun b => RectCmd.mk b.x b.y (b.x + b.w) (b.y + b.h) COLOR_EYE)).filter
      (fun r => r.color == COLOR_FACE) = [] := by
    rw [List.filter_eq_nil_iff]
    intro r hr
    simp only [List.mem_map] at hr
    obtain ⟨b, _, rfl⟩ := hr
    simp [COLOR_FACE, COLOR_EYE]
  rw [h1, h2]
  simp

/-- C8: in each capture-loop iteration with `n` detected faces, the face
count passed to the statistics overlay equals `min n 5`, while the
eye-detection pass invokes the eye classifier once per detected face and
the rectangle drawing emits one face-colored rectangle per detected face
— the cap is display-only. -/
theorem C8_display_cap_only (face_cascade eye_cascade : Img → List Box) (frame : Img) :
    (iterationStats (detect_faces_and_eyes face_cascade eye_cascade frame).1
        (detect_faces_and_eyes face_cascade eye_cascade frame).2).display_face_count =
      min (detect_faces_and_eyes face_cascade eye_cascade frame).1.length 5 ∧
    (detectCounting face_cascade eye_cascade frame).2 =
      (detect_faces_and_eyes face_cascade eye_cascade frame).1.length ∧
    ((draw_detections (detect_faces_and_eyes face_cascade eye_cascade frame).1
        (detect_faces_and_eyes face_cascade eye_cascade frame).2).filter
        (fun r => r.color == COLOR_FACE)).length =
      (detect_faces_and_eyes face_cascade eye_cascade frame).1.length :=
  ⟨rfl, (detectCounting_spec face_cascade eye_cascade frame).2,
    draw_detections_face_rects _ _⟩

/-- C9: a capture-loop iteration in which frame acquisition returns no
frame logs a warning and retries without advancing any counters: the
loop state (processed-frame count, FPS calculator, running flag) is
unchanged, no detection or rendering event occurs, and any number of
consecutive failures still leaves the state unchanged — the failure is
never fatal and there is no retry limit. -/
theorem C9_capture_failure_retry (face_cascade eye_cascade : Img → List Box)
    (s : LoopState) (t : ℚ) (key : Option Char) (n : ℕ) :
    loopStep face_cascade eye_cascade s none t key =
      (s, [LoopEvent.warnCaptureFailed]) ∧
    runFailedCaptures face_cascade eye_cascade s t key n = s := by
  refine ⟨rfl, ?_⟩
  induction n with
  | zero => rfl
  | succ m ih =>
    rw [runFailedCaptures, ih]
    rfl

/-- C10: in the iteration in which `q` is pressed the loop breaks before
the processed-frame counter is incremented: the frame is fully processed
and displayed (detection, rendering and display events occur, then the
quit event), but `frame_count` is unchanged, so that frame is excluded
from the session totals (frame count, average FPS) and no every-100th
frame summary is emitted for it. -/
theorem C10_quit_before_increment (face_cascade eye_cascade : Img → List Box)
    (s : LoopState) (frame : Img) (t total_time : ℚ) :
    (loopStep face_cascade eye_cascade s (some frame) t (some 'q')).1.frame_count =
      s.frame_count ∧
    (loopStep face_cascade eye_cascade s (some frame) t (some 'q')).1.running = false ∧
    (loopStep face_cascade eye_cascade s (some frame) t (some 'q')).2 =
      [LoopEvent.detected (detect_faces_and_eyes face_cascade eye_cascade frame).1
          (detect_faces_and_eyes face_cascade eye_cascade frame).2,
        LoopEvent.rendered
          (draw_detections (detect_faces_and_eyes face_cascade eye_cascade frame).1
            (detect_faces_and_eyes face_cascade eye_cascade frame).2)
          (iterationStats (detect_faces_and_eyes face_cascade eye_cascade frame).1
            (detect_faces_and_eyes face_cascade eye_cascade frame).2),
        LoopEvent.displayed, LoopEvent.quitRequested] ∧
    finalAvgFPS
        (loopStep face_cascade eye_cascade s (some frame) t (some 'q')).1.frame_count
        total_time =
      finalAvgFPS s.frame_count total_time := by
  exact ⟨rfl, rfl, rfl, rfl⟩
